import Mathlib

/-!
Shallow embedding of the zotero_mcp server (src/main.py) and verification of
its specified properties.

Modelling conventions:
- Python strings are Lean `String`s; character-level operations (slicing,
  `.lower()`, substring `in`) act on `String.data : List Char`.
- A raw Zotero item `{"key": ..., "data": {...}}` is the structure `Item`;
  a field absent from the `data` mapping is `none`.
- Exceptions raised by the external pyzotero client are modelled as
  `Except String` results of the corresponding `ClientOps` fields; every
  call an operation makes on the client is recorded in a `ClientCall` trace.
- The process-wide globals (ZOTERO_LIBRARY_ID, ZOTERO_API_KEY,
  ZOTERO_LIBRARY_TYPE, zot) form the explicit state `ConfigState` threaded
  through each operation.
- `json.dumps` pretty-printing is modelled by a fixed canonical rendering;
  no verified property depends on the exact rendered text.
-/

/-- The `data` mapping of a raw Zotero item; absent keys are `none`. -/
structure ItemData where
  itemType : Option String
  title : Option String
  dateAdded : Option String
deriving DecidableEq, Repr

/-- A raw Zotero item: stable key plus its data mapping. -/
structure Item where
  key : String
  data : ItemData
deriving DecidableEq, Repr

/-- The compact summary dict built by list/search/recent operations. -/
structure ItemSummary where
  key : String
  title : String
  itemType : Option String
  dateAdded : Option String
deriving DecidableEq, Repr

/-- One call made on the external pyzotero client. -/
inductive ClientCall where
  | top (limit : Option Nat)
  | everything
  | itemGet (key : String)
  | deleteItem (key : String)
deriving DecidableEq, Repr

/-- Behaviour of a constructed pyzotero client: each method either returns a
value or raises (modelled as `Except.error` with the exception text).
`everythingTop` models `zot.everything(zot.top())`. -/
structure ClientOps where
  top : Option Nat → Except String (List Item)
  everythingTop : Except String (List Item)
  itemGet : String → Except String Item
  deleteItem : String → Except String Unit

/-- The external environment: `build` models the `zotero.Zotero(...)`
constructor, which may itself raise. -/
structure Env where
  build : String → String → String → Except String ClientOps

/-- The process-wide globals of main.py: the three credential variables and
the cached client `zot`. -/
structure ConfigState where
  libraryId : String
  apiKey : String
  libraryType : String
  zot : Option ClientOps

/-- Python `s.lower()` viewed at character level (ASCII case folding). -/
def lowerChars (s : String) : List Char :=
  s.data.map Char.toLower

/-- Python `s.strip()`: remove leading and trailing whitespace, at character
level. -/
def pyStrip (s : String) : String :=
  ⟨((s.data.dropWhile Char.isWhitespace).reverse.dropWhile Char.isWhitespace).reverse⟩

/-- Python substring test `needle in haystack` on character sequences. -/
def containsSub (needle haystack : List Char) : Bool :=
  decide (needle <:+: haystack)

/-- Python dict lookup on the criteria mapping: `k in d` / `d[k]`. -/
def dictGet (m : List (String × String)) (k : String) : Option String :=
  match m with
  | [] => none
  | (k', v) :: rest => if k' = k then some v else dictGet rest k

/-- main.py line 65 etc.: the not-configured message returned by tools. -/
def toolNotConfiguredMsg : String :=
  "❌ 错误：Zotero未配置。请先使用 configure_zotero 工具设置您的API凭据。"

/-- main.py lines 228/254: the not-configured error body used by resources. -/
def resourceNotConfiguredText : String :=
  "Zotero未配置。请先使用 configure_zotero 工具设置您的API凭据。"

def jsonStr (s : String) : String := "\"" ++ s ++ "\""

def jsonOpt : Option String → String
  | none => "null"
  | some s => jsonStr s

/-- Canonical rendering of one summary dict (stands in for json.dumps). -/
def renderSummary (s : ItemSummary) : String :=
  "\x7b\"key\": " ++ jsonStr s.key ++ ", \"title\": " ++ jsonStr s.title ++
    ", \"itemType\": " ++ jsonOpt s.itemType ++ ", \"dateAdded\": " ++ jsonOpt s.dateAdded ++ "\x7d"

def renderSummaries (l : List ItemSummary) : String :=
  "[" ++ String.intercalate ", " (l.map renderSummary) ++ "]"

/-- Canonical rendering of a full raw item (stands in for json.dumps). -/
def renderItem (item : Item) : String :=
  "\x7b\"key\": " ++ jsonStr item.key ++ ", \"data\": \x7b\"itemType\": " ++
    jsonOpt item.data.itemType ++ ", \"title\": " ++ jsonOpt item.data.title ++
    ", \"dateAdded\": " ++ jsonOpt item.data.dateAdded ++ "\x7d\x7d"

/-- `json.dumps({"error": msg})` for the resource endpoints. -/
def jsonError (msg : String) : String :=
  "\x7b\"error\": " ++ jsonStr msg ++ "\x7d"

/-- main.py lines 19-29, `get_zotero_client`: returns `none` when either
credential is empty; otherwise lazily constructs and caches the client,
swallowing a construction failure as `none`. Returns the possibly-updated
global state alongside the result. -/
def get_zotero_client (env : Env) (st : ConfigState) : Option ClientOps × ConfigState :=
  if st.libraryId = "" ∨ st.apiKey = "" then
    (none, st)
  else
    match st.zot with
    | some c => (some c, st)
    | none =>
      match env.build st.libraryId st.libraryType st.apiKey with
      | .error _ => (none, st)
      | .ok c => (some c, { st with zot := some c })

/-- main.py lines 31-58, `configure_zotero`: validate, then overwrite the
global credentials with stripped values, reset the cached client, and probe
the new credentials with `top(limit=1)`; the probe outcome only affects the
returned message, never the stored state. -/
def configure_zotero (env : Env) (st : ConfigState) (library_id api_key : String)
    (library_type : String := "user") : String × ConfigState :=
  if library_id = "" ∨ api_key = "" then
    ("错误：库ID和API密钥不能为空", st)
  else if library_type ≠ "user" ∧ library_type ≠ "group" then
    ("错误：库类型必须是 \x27user\x27 或 \x27group\x27", st)
  else
    let st' : ConfigState :=
      { libraryId := pyStrip library_id, apiKey := pyStrip api_key
        libraryType := pyStrip library_type, zot := none }
    match env.build st'.libraryId st'.libraryType st'.apiKey with
    | .error e =>
      ("❌ Zotero配置失败: " ++ e ++ "\n请检查您的库ID和API密钥是否正确", st')
    | .ok test_client =>
      match test_client.top (some 1) with
      | .error e =>
        ("❌ Zotero配置失败: " ++ e ++ "\n请检查您的库ID和API密钥是否正确", st')
      | .ok _ =>
        ("✅ Zotero配置成功！\n库ID: " ++ st'.libraryId ++ "\n库类型: " ++ st'.libraryType, st')

/-- main.py line 280: mask the API key for display. Python slicing and string
repetition act on the character sequence. -/
def maskedKey (key : String) : String :=
  if key.length > 8 then
    ⟨key.data.take 8 ++ List.replicate (key.length - 8) '*'⟩
  else
    ⟨List.replicate key.length '*'⟩

/-- main.py lines 273-282, `check_zotero_config`. -/
def check_zotero_config (st : ConfigState) : String :=
  if st.libraryId = "" ∨ st.apiKey = "" then
    "❌ Zotero未配置\n请使用 configure_zotero 工具设置您的API凭据\n\n需要的信息:\n- library_id: 您的Zotero库ID\n- api_key: 您的Zotero API密钥\n- library_type: \x27user\x27 或 \x27group\x27"
  else
    "✅ Zotero已配置\n库ID: " ++ st.libraryId ++ "\n库类型: " ++ st.libraryType ++
      "\nAPI密钥: " ++ maskedKey st.apiKey

/-- main.py lines 70-76: the summary dict built inside `list_items`. -/
def list_projection (item : Item) : ItemSummary :=
  { key := item.key, title := item.data.title.getD "无标题"
    itemType := item.data.itemType, dateAdded := item.data.dateAdded }

/-- main.py lines 137-142: the summary dict built inside `search_items`. -/
def search_projection (item : Item) : ItemSummary :=
  { key := item.key, title := item.data.title.getD "无标题"
    itemType := item.data.itemType, dateAdded := item.data.dateAdded }

/-- main.py lines 262-267: the summary dict built inside `get_recent_items`. -/
def recent_projection (item : Item) : ItemSummary :=
  { key := item.key, title := item.data.title.getD "无标题"
    itemType := item.data.itemType, dateAdded := item.data.dateAdded }

/-- main.py lines 178-187: the per-item retention decision of
`retain_items_by_criteria` — start from True and clear the flag for each
recognized criterion the item fails. -/
def should_retain (criteria : List (String × String)) (data : ItemData) : Bool :=
  let sr := true
  let sr :=
    match dictGet criteria "item_type" with
    | some t => if data.itemType ≠ some t then false else sr
    | none => sr
  let sr :=
    match dictGet criteria "title_contains" with
    | some s =>
      if !(containsSub (lowerChars s) (lowerChars (data.title.getD ""))) then false else sr
    | none => sr
  sr

/-- main.py lines 176-194: the retain/delete partition loop, appending each
item to exactly one of the two accumulators in fetch order. -/
def partitionLoop (criteria : List (String × String)) :
    List Item → List Item → List Item → List Item × List Item
  | [], items_to_retain, items_to_delete => (items_to_retain, items_to_delete)
  | item :: rest, items_to_retain, items_to_delete =>
    if should_retain criteria item.data then
      partitionLoop criteria rest (items_to_retain ++ [item]) items_to_delete
    else
      partitionLoop criteria rest items_to_retain (items_to_delete ++ [item])

/-- The retain/delete partition computed by `retain_items_by_criteria`. -/
def partition_items (criteria : List (String × String)) (items : List Item) :
    List Item × List Item :=
  partitionLoop criteria items [] []

/-- main.py lines 200-206: the dry-run preview of at most the first 10 items
slated for deletion plus a remainder count. -/
def previewLines (items_to_delete : List Item) : String :=
  String.join ((items_to_delete.take 10).map fun item =>
    "- " ++ item.data.title.getD "无标题" ++ " (" ++ item.key ++ ")\n") ++
  (if items_to_delete.length > 10 then
    "... 还有 " ++ toString (items_to_delete.length - 10) ++ " 个条目\n"
  else "")

/-- main.py lines 209-215: the deletion loop of `retain_items_by_criteria`:
one `delete_item` call per item, counting successes and appending a failure
line per raised exception, never aborting. Returns
(deleted_count, failure text, client-call trace). -/
def retainDeleteLoop (c : ClientOps) : List Item → Nat × String × List ClientCall
  | [] => (0, "", [])
  | item :: rest =>
    let r := retainDeleteLoop c rest
    match c.deleteItem item.key with
    | .ok _ => (r.1 + 1, r.2.1, ClientCall.deleteItem item.key :: r.2.2)
    | .error e =>
      (r.1, ("删除失败 " ++ item.key ++ ": " ++ e ++ "\n") ++ r.2.1,
        ClientCall.deleteItem item.key :: r.2.2)

/-- main.py lines 161-220, `retain_items_by_criteria`: fetch everything,
partition by criteria, then either preview (dry run, the default) or delete
the non-retained items. Result: (message, state, client-call trace). -/
def retain_items_by_criteria (env : Env) (st : ConfigState)
    (criteria : List (String × String)) (dry_run : Bool := true) :
    String × ConfigState × List ClientCall :=
  match get_zotero_client env st with
  | (none, st') => (toolNotConfiguredMsg, st', [])
  | (some c, st') =>
    match c.everythingTop with
    | .error e => ("执行筛选操作失败: " ++ e, st', [ClientCall.everything])
    | .ok all_items =>
      let pr := partition_items criteria all_items
      let result := "根据条件筛选结果:\n保留条目: " ++ toString pr.1.length ++
        " 个\n待删除条目: " ++ toString pr.2.length ++ " 个\n"
      if dry_run then
        (result ++ "\n[预览模式] 待删除的条目:\n" ++ previewLines pr.2, st',
          [ClientCall.everything])
      else
        let dl := retainDeleteLoop c pr.2
        (result ++ dl.2.1 ++ "\n实际删除了 " ++ toString dl.1 ++ " 个条目", st',
          ClientCall.everything :: dl.2.2)

/-- main.py lines 101-109: the per-key loop of `delete_items_batch`: one
delete attempt per key, counting successes and collecting a
"key: message" line per failure. Returns
(success_count, failure lines, client-call trace). -/
def batchLoop (c : ClientOps) : List String → Nat × List String × List ClientCall
  | [] => (0, [], [])
  | key :: rest =>
    let r := batchLoop c rest
    match c.deleteItem key with
    | .ok _ => (r.1 + 1, r.2.1, ClientCall.deleteItem key :: r.2.2)
    | .error e => (r.1, (key ++ ": " ++ e) :: r.2.1, ClientCall.deleteItem key :: r.2.2)

/-- main.py lines 94-117, `delete_items_batch`. -/
def delete_items_batch (env : Env) (st : ConfigState) (item_keys : List String) :
    String × ConfigState × List ClientCall :=
  match get_zotero_client env st with
  | (none, st') => (toolNotConfiguredMsg, st', [])
  | (some c, st') =>
    let r := batchLoop c item_keys
    let result := "成功删除 " ++ toString r.1 ++ " 个条目"
    let result :=
      if r.2.1 ≠ [] then
        result ++ "\n删除失败的条目:\n" ++ String.intercalate "\n" r.2.1
      else result
    (result, st', r.2.2)

/-- main.py lines 60-79, `list_items`. -/
def list_items (env : Env) (st : ConfigState) (limit : Nat := 50) :
    String × ConfigState × List ClientCall :=
  match get_zotero_client env st with
  | (none, st') => (toolNotConfiguredMsg, st', [])
  | (some c, st') =>
    match c.top (some limit) with
    | .error e => ("获取条目列表失败: " ++ e, st', [ClientCall.top (some limit)])
    | .ok items =>
      let result := items.map list_projection
      ("找到 " ++ toString result.length ++ " 个条目:\n" ++ renderSummaries result, st',
        [ClientCall.top (some limit)])

/-- main.py lines 81-92, `delete_item`. -/
def delete_item (env : Env) (st : ConfigState) (item_key : String) :
    String × ConfigState × List ClientCall :=
  match get_zotero_client env st with
  | (none, st') => (toolNotConfiguredMsg, st', [])
  | (some c, st') =>
    match c.deleteItem item_key with
    | .ok _ => ("成功删除条目: " ++ item_key, st', [ClientCall.deleteItem item_key])
    | .error e => ("删除条目失败: " ++ e, st', [ClientCall.deleteItem item_key])

/-- main.py lines 119-146, `search_items`: exhaustive fetch, then keep items
whose lowered title contains the lowered query, post-filtered by exact
itemType when `item_type` is given. -/
def search_items (env : Env) (st : ConfigState) (query : String)
    (item_type : Option String := none) : String × ConfigState × List ClientCall :=
  match get_zotero_client env st with
  | (none, st') => (toolNotConfiguredMsg, st', [])
  | (some c, st') =>
    match c.everythingTop with
    | .error e => ("搜索失败: " ++ e, st', [ClientCall.everything])
    | .ok items =>
      let filtered_items := items.filterMap fun item =>
        if containsSub (lowerChars query) (lowerChars (item.data.title.getD "")) then
          match item_type with
          | none => some (search_projection item)
          | some t =>
            if item.data.itemType = some t then some (search_projection item) else none
        else none
      ("搜索结果 (" ++ toString filtered_items.length ++ " 个条目):\n" ++
        renderSummaries filtered_items, st', [ClientCall.everything])

/-- main.py lines 148-159, `get_item_details`. -/
def get_item_details (env : Env) (st : ConfigState) (item_key : String) :
    String × ConfigState × List ClientCall :=
  match get_zotero_client env st with
  | (none, st') => (toolNotConfiguredMsg, st', [])
  | (some c, st') =>
    match c.itemGet item_key with
    | .error e => ("获取条目详情失败: " ++ e, st', [ClientCall.itemGet item_key])
    | .ok item => ("条目详情:\n" ++ renderItem item, st', [ClientCall.itemGet item_key])

/-- main.py lines 235-238: Python dict counting with insertion order. -/
def bumpCount (m : List (String × Nat)) (k : String) : List (String × Nat) :=
  match m with
  | [] => [(k, 1)]
  | (k', n) :: rest => if k' = k then (k', n + 1) :: rest else (k', n) :: bumpCount rest k

/-- The itemType histogram of `get_library_stats`. -/
def typeCounts (items : List Item) : List (String × Nat) :=
  items.foldl (fun m item => bumpCount m (item.data.itemType.getD "unknown")) []

/-- Canonical rendering of the stats JSON body. -/
def renderStats (total : Nat) (tc : List (String × Nat)) : String :=
  "\x7b\"total_items\": " ++ toString total ++ ", \"item_types\": \x7b" ++
    String.intercalate ", " (tc.map fun p => jsonStr p.1 ++ ": " ++ toString p.2) ++
    "\x7d\x7d"

/-- main.py lines 223-247, resource `zotero://library/stats`. -/
def get_library_stats (env : Env) (st : ConfigState) :
    String × ConfigState × List ClientCall :=
  match get_zotero_client env st with
  | (none, st') => (jsonError resourceNotConfiguredText, st', [])
  | (some c, st') =>
    match c.top none with
    | .error e => (jsonError ("获取库统计信息失败: " ++ e), st', [ClientCall.top none])
    | .ok items =>
      (renderStats items.length (typeCounts items), st', [ClientCall.top none])

/-- main.py lines 249-271, resource `zotero://library/recent`. -/
def get_recent_items (env : Env) (st : ConfigState) :
    String × ConfigState × List ClientCall :=
  match get_zotero_client env st with
  | (none, st') => (jsonError resourceNotConfiguredText, st', [])
  | (some c, st') =>
    match c.top (some 10) with
    | .error e => (jsonError ("获取最近条目失败: " ++ e), st', [ClientCall.top (some 10)])
    | .ok items =>
      (renderSummaries (items.map recent_projection), st', [ClientCall.top (some 10)])

/-! Concrete fixtures used by the closed witness theorems. -/

def noNetEnv : Env := ⟨fun _ _ _ => Except.error "no network"⟩

def sampleState : ConfigState := ⟨"L", "K", "user", none⟩

def failingClient : ClientOps :=
  ⟨fun _ => Except.error "bad key", Except.error "bad key",
    fun _ => Except.error "bad key", fun _ => Except.error "bad key"⟩

def probeFailEnv : Env := ⟨fun _ _ _ => Except.ok failingClient⟩

def batchClient : ClientOps :=
  ⟨fun _ => Except.error "x", Except.error "x", fun _ => Except.error "x",
    fun k => if k = "B" then Except.error "boom" else Except.ok ()⟩

def batchState : ConfigState := ⟨"L", "K", "user", some batchClient⟩

def itemA : Item := ⟨"A", ⟨some "book", some "Alpha", none⟩⟩

def itemB : Item := ⟨"B", ⟨some "article", none, none⟩⟩

def retainClient : ClientOps :=
  ⟨fun _ => Except.ok [], Except.ok [itemA, itemB],
    fun _ => Except.error "x", fun _ => Except.ok ()⟩

def retainState : ConfigState := ⟨"L", "K", "user", some retainClient⟩

def errClient : ClientOps :=
  ⟨fun _ => Except.error "boom", Except.error "boom",
    fun _ => Except.error "boom", fun _ => Except.error "boom"⟩

def errState : ConfigState := ⟨"L", "K", "user", some errClient⟩

def unconfState : ConfigState := ⟨"", "K", "user", none⟩

def maskState : ConfigState := ⟨"LIB", "abcdefghij", "user", none⟩

/-! Helper lemmas shared by several verification theorems. -/

theorem get_client_unconfigured (env : Env) (st : ConfigState)
    (h : st.libraryId = "" ∨ st.apiKey = "") :
    get_zotero_client env st = (none, st) := by
  unfold get_zotero_client
  rw [if_pos h]

theorem partitionLoop_eq (criteria : List (String × String)) (l ret del : List Item) :
    partitionLoop criteria l ret del =
      (ret ++ l.filter (fun i => should_retain criteria i.data),
       del ++ l.filter (fun i => !(should_retain criteria i.data))) := by
  induction l generalizing ret del with
  | nil => simp [partitionLoop]
  | cons a t ih =>
    cases h : should_retain criteria a.data with
    | true => simp [partitionLoop, h, ih]
    | false => simp [partitionLoop, h, ih]

theorem partition_items_eq (criteria : List (String × String)) (items : List Item) :
    partition_items criteria items =
      (items.filter (fun i => should_retain criteria i.data),
       items.filter (fun i => !(should_retain criteria i.data))) := by
  simpa using partitionLoop_eq criteria items [] []

/-- Claim C2: the retention filter retains an item iff it satisfies every
recognized criterion present in the criteria (a conjunction): `item_type`
requires exact, case-sensitive equality with the item's itemType;
`title_contains` requires a case-insensitive substring match against the
title, a missing title being treated as the empty string; unrecognized
criteria keys and absent recognized keys impose no constraint, and empty
criteria retains every item. -/
theorem retention_criteria_conjunction (criteria : List (String × String)) (data : ItemData) :
    (should_retain criteria data = true ↔
      ((∀ t, dictGet criteria "item_type" = some t → data.itemType = some t) ∧
       (∀ s, dictGet criteria "title_contains" = some s →
         lowerChars s <:+: lowerChars (data.title.getD "")))) ∧
    should_retain [] data = true ∧
    (∀ c₂ : List (String × String),
      dictGet criteria "item_type" = dictGet c₂ "item_type" →
      dictGet criteria "title_contains" = dictGet c₂ "title_contains" →
      should_retain criteria data = should_retain c₂ data) ∧
    (∀ k v, ¬ k = "item_type" → ¬ k = "title_contains" →
      should_retain ((k, v) :: criteria) data = should_retain criteria data) := by
  have hext : ∀ c₁ c₂ : List (String × String),
      dictGet c₁ "item_type" = dictGet c₂ "item_type" →
      dictGet c₁ "title_contains" = dictGet c₂ "title_contains" →
      should_retain c₁ data = should_retain c₂ data := by
    intro c₁ c₂ h1 h2
    unfold should_retain
    rw [h1, h2]
  refine ⟨?_, by simp [should_retain, dictGet], hext criteria, ?_⟩
  · cases h1 : dictGet criteria "item_type" with
    | none =>
      cases h2 : dictGet criteria "title_contains" with
      | none => simp [should_retain, h1, h2]
      | some s =>
        by_cases hi : lowerChars s <:+: lowerChars (data.title.getD "") <;>
          simp [should_retain, h1, h2, containsSub, hi]
    | some t =>
      cases h2 : dictGet criteria "title_contains" with
      | none =>
        by_cases hd : data.itemType = some t <;> simp [should_retain, h1, h2, hd]
      | some s =>
        by_cases hd : data.itemType = some t <;>
          by_cases hi : lowerChars s <:+: lowerChars (data.title.getD "") <;>
            simp [should_retain, h1, h2, containsSub, hd, hi]
  · intro k v hk1 hk2
    exact hext _ _ (by simp [dictGet, hk1]) (by simp [dictGet, hk2])

/-- Witness for C2 at concrete inputs: an unrecognized key imposes no
constraint and empty criteria retain the item. -/
theorem retention_criteria_conjunction_witness :
    should_retain [("color", "red")] ⟨none, none, none⟩ =
      should_retain [] ⟨none, none, none⟩ ∧
    should_retain [] ⟨none, none, none⟩ = true :=
  ⟨(retention_criteria_conjunction [] ⟨none, none, none⟩).2.2.2 "color" "red"
      (by decide) (by decide),
   (retention_criteria_conjunction [] ⟨none, none, none⟩).2.1⟩

/-- Claim C3: the retain/delete partition is total and exclusive — every
input item lands in exactly one of the retain and delete sequences, the
union of the two key sequences is a permutation of the input's keys — and
both output sequences preserve the relative order of the input. -/
theorem partition_total_exclusive_ordered (criteria : List (String × String))
    (items : List Item) :
    ((partition_items criteria items).1 ++ (partition_items criteria items).2).Perm items ∧
    ((partition_items criteria items).1.map Item.key ++
      (partition_items criteria items).2.map Item.key).Perm (items.map Item.key) ∧
    (partition_items criteria items).1.Sublist items ∧
    (partition_items criteria items).2.Sublist items ∧
    (∀ i ∈ items,
      (i ∈ (partition_items criteria items).1 ↔ should_retain criteria i.data = true) ∧
      (i ∈ (partition_items criteria items).2 ↔ should_retain criteria i.data = false)) := by
  rw [partition_items_eq]
  have hperm := List.filter_append_perm (fun i => should_retain criteria i.data) items
  refine ⟨hperm, ?_, List.filter_sublist items, List.filter_sublist items, ?_⟩
  · have := hperm.map Item.key
    simpa using this
  · intro i hi
    constructor
    · simp [List.mem_filter, hi]
    · simp [List.mem_filter, hi]

/-- Witness for C3 at a concrete two-item collection: the book lands in the
retain sequence and the article does not land there. -/
theorem partition_total_exclusive_ordered_witness :
    itemA ∈ (partition_items [("item_type", "book")] [itemA, itemB]).1 ∧
    itemB ∈ (partition_items [("item_type", "book")] [itemA, itemB]).2 :=
  ⟨((partition_total_exclusive_ordered [("item_type", "book")] [itemA, itemB]).2.2.2.2
      itemA (by decide)).1.mpr (by decide),
   ((partition_total_exclusive_ordered [("item_type", "book")] [itemA, itemB]).2.2.2.2
      itemB (by decide)).2.mpr (by decide)⟩

theorem batchLoop_eq (c : ClientOps) (keys : List String) :
    batchLoop c keys =
      ((keys.filter fun k => (c.deleteItem k).toOption.isSome).length,
       keys.filterMap (fun k =>
         match c.deleteItem k with
         | .ok _ => none
         | .error e => some (k ++ ": " ++ e)),
       keys.map ClientCall.deleteItem) := by
  induction keys with
  | nil => rfl
  | cons k t ih =>
    cases h : c.deleteItem k with
    | ok u => simp [batchLoop, h, ih, Except.toOption]
    | error e => simp [batchLoop, h, ih, Except.toOption]

theorem batchLoop_length (c : ClientOps) (keys : List String) :
    (batchLoop c keys).1 + (batchLoop c keys).2.1.length = keys.length := by
  induction keys with
  | nil => rfl
  | cons k t ih =>
    cases h : c.deleteItem k with
    | ok u => simp [batchLoop, h] ; omega
    | error e => simp [batchLoop, h] ; omega

/-- Claim C4: `delete_items_batch` attempts each key independently with one
attempt per key — a failure never aborts the remaining keys — and reports
the number of successes plus the ordered failure lines (one "key: message"
entry per failing key, in input order). -/
theorem batch_delete_isolated_failures (env : Env) (st : ConfigState) (c : ClientOps)
    (st₂ : ConfigState) (keys : List String)
    (hget : get_zotero_client env st = (some c, st₂)) :
    (batchLoop c keys).1 =
      (keys.filter fun k => (c.deleteItem k).toOption.isSome).length ∧
    (batchLoop c keys).2.1 = keys.filterMap (fun k =>
      match c.deleteItem k with
      | .ok _ => none
      | .error e => some (k ++ ": " ++ e)) ∧
    (batchLoop c keys).2.2 = keys.map ClientCall.deleteItem ∧
    (batchLoop c keys).1 + (batchLoop c keys).2.1.length = keys.length ∧
    (delete_items_batch env st keys).2.2 = keys.map ClientCall.deleteItem := by
  refine ⟨?_, ?_, ?_, batchLoop_length c keys, ?_⟩
  · rw [batchLoop_eq]
  · rw [batchLoop_eq]
  · rw [batchLoop_eq]
  · simp only [delete_items_batch, hget]
    rw [batchLoop_eq]

/-- Witness for C4: deleting ["A","B","C"] where deleting "B" raises gives
success_count = 2, one failure line for "B", and one delete attempt per key. -/
theorem batch_delete_isolated_failures_witness :
    (batchLoop batchClient ["A", "B", "C"]).1 = 2 ∧
    (batchLoop batchClient ["A", "B", "C"]).2.1 = ["B: boom"] ∧
    (delete_items_batch noNetEnv batchState ["A", "B", "C"]).2.2 =
      [ClientCall.deleteItem "A", ClientCall.deleteItem "B", ClientCall.deleteItem "C"] := by
  have h := batch_delete_isolated_failures noNetEnv batchState batchClient batchState
    ["A", "B", "C"] rfl
  exact ⟨h.1.trans (by decide), h.2.1.trans (by decide), h.2.2.2.2.trans (by decide)⟩

theorem configure_zotero_valid (env : Env) (st : ConfigState) (id key ty : String)
    (h1 : ¬ id = "") (h2 : ¬ key = "") (h3 : ty = "user" ∨ ty = "group") :
    (configure_zotero env st id key ty).2 = ⟨pyStrip id, pyStrip key, pyStrip ty, none⟩ := by
  unfold configure_zotero
  rw [if_neg (by simp [h1, h2])]
  rw [if_neg (by rcases h3 with h | h <;> simp [h])]
  cases hb : env.build (pyStrip id) (pyStrip ty) (pyStrip key) with
  | error e => simp [hb]
  | ok c =>
    cases hp : c.top (some 1) with
    | error e => simp [hb, hp]
    | ok items => simp [hb, hp]

/-- Claim C5: a `configure_zotero` call that fails validation (empty
library_id, empty api_key, or a library_type outside user/group) returns a
validation message and leaves the stored credentials and the cached client
handle unchanged, so `get_client` behaves exactly as before the call. -/
theorem configure_rejected_preserves_state (env : Env) (st : ConfigState)
    (id key ty : String)
    (h : id = "" ∨ key = "" ∨ (¬ ty = "user" ∧ ¬ ty = "group")) :
    (configure_zotero env st id key ty).2 = st ∧
    ((configure_zotero env st id key ty).1 = "错误：库ID和API密钥不能为空" ∨
     (configure_zotero env st id key ty).1 = "错误：库类型必须是 \x27user\x27 或 \x27group\x27") ∧
    get_zotero_client env (configure_zotero env st id key ty).2 =
      get_zotero_client env st := by
  have hmain : (configure_zotero env st id key ty).2 = st ∧
      ((configure_zotero env st id key ty).1 = "错误：库ID和API密钥不能为空" ∨
       (configure_zotero env st id key ty).1 = "错误：库类型必须是 \x27user\x27 或 \x27group\x27") := by
    by_cases hv : id = "" ∨ key = ""
    · rw [configure_zotero, if_pos hv]
      exact ⟨rfl, Or.inl rfl⟩
    · have hty : ¬ ty = "user" ∧ ¬ ty = "group" := by
        rcases h with h | h | h
        · exact absurd (Or.inl h) hv
        · exact absurd (Or.inr h) hv
        · exact h
      rw [configure_zotero, if_neg hv, if_pos hty]
      exact ⟨rfl, Or.inr rfl⟩
  refine ⟨hmain.1, hmain.2, ?_⟩
  rw [hmain.1]

/-- Witness for C5: a rejected call with an empty library_id leaves a
previously configured state intact. -/
theorem configure_rejected_preserves_state_witness :
    (configure_zotero noNetEnv sampleState "" "k" "user").2 = sampleState :=
  (configure_rejected_preserves_state noNetEnv sampleState "" "k" "user" (Or.inl rfl)).1

/-- Claim C6: when validation passes, the credential state is replaced with
the stripped values and the cached client handle is cleared before the live
probe runs; the stored state does not depend on the probe's outcome, and a
construction or probe failure is surfaced as a textual configuration-error
message rather than a raised fault. -/
theorem configure_mutates_before_probe (env : Env) (st : ConfigState)
    (id key ty : String)
    (h1 : ¬ id = "") (h2 : ¬ key = "") (h3 : ty = "user" ∨ ty = "group") :
    (configure_zotero env st id key ty).2 = ⟨pyStrip id, pyStrip key, pyStrip ty, none⟩ ∧
    (∀ env' : Env,
      (configure_zotero env' st id key ty).2 = (configure_zotero env st id key ty).2) ∧
    (∀ e, env.build (pyStrip id) (pyStrip ty) (pyStrip key) = .error e →
      (configure_zotero env st id key ty).1 =
        "❌ Zotero配置失败: " ++ e ++ "\n请检查您的库ID和API密钥是否正确") ∧
    (∀ c e, env.build (pyStrip id) (pyStrip ty) (pyStrip key) = .ok c → c.top (some 1) = .error e →
      (configure_zotero env st id key ty).1 =
        "❌ Zotero配置失败: " ++ e ++ "\n请检查您的库ID和API密钥是否正确") := by
  refine ⟨configure_zotero_valid env st id key ty h1 h2 h3, ?_, ?_, ?_⟩
  · intro env'
    rw [configure_zotero_valid env st id key ty h1 h2 h3,
      configure_zotero_valid env' st id key ty h1 h2 h3]
  · intro e hb
    unfold configure_zotero
    rw [if_neg (by simp [h1, h2])]
    rw [if_neg (by rcases h3 with h | h <;> simp [h])]
    simp [hb]
  · intro c e hb hp
    unfold configure_zotero
    rw [if_neg (by simp [h1, h2])]
    rw [if_neg (by rcases h3 with h | h <;> simp [h])]
    simp [hb, hp]

/-- Witness for C6: with credentials that build a client whose probe raises,
the state is still replaced and the probe failure is reported textually. -/
theorem configure_mutates_before_probe_witness :
    (configure_zotero probeFailEnv sampleState "L2" "K2" "user").2 =
      ⟨"L2", "K2", "user", none⟩ ∧
    (configure_zotero probeFailEnv sampleState "L2" "K2" "user").1 =
      "❌ Zotero配置失败: bad key\n请检查您的库ID和API密钥是否正确" := by
  have h := configure_mutates_before_probe probeFailEnv sampleState "L2" "K2" "user"
    (by decide) (by decide) (Or.inl rfl)
  exact ⟨h.1.trans (by rfl), h.2.2.2 failingClient "bad key" rfl rfl⟩

/-- Claim C7: `check_zotero_config` masks the stored API key: a key of
length at most 8 becomes an all-mask string of the same length; a longer key
keeps its first 8 characters verbatim followed by one mask character per
remaining character. The configured report embeds exactly this mask. -/
theorem api_key_masking (key : String) :
    (maskedKey key).length = key.length ∧
    (key.length ≤ 8 → (maskedKey key).data = List.replicate key.length '*') ∧
    (key.length > 8 →
      (maskedKey key).data.take 8 = key.data.take 8 ∧
      (maskedKey key).data.drop 8 = List.replicate (key.length - 8) '*') ∧
    (∀ st : ConfigState, ¬ st.libraryId = "" → ¬ st.apiKey = "" →
      check_zotero_config st =
        "✅ Zotero已配置\n库ID: " ++ st.libraryId ++ "\n库类型: " ++ st.libraryType ++
          "\nAPI密钥: " ++ maskedKey st.apiKey) := by
  have hdata : key.length = key.data.length := rfl
  refine ⟨?_, ?_, ?_, ?_⟩
  · unfold maskedKey
    split_ifs with h
    · change (key.data.take 8 ++ List.replicate (key.length - 8) '*').length = key.length
      rw [hdata] at h ⊢
      simp only [List.length_append, List.length_take, List.length_replicate]
      omega
    · change (List.replicate key.length '*').length = key.length
      simp
  · intro h
    unfold maskedKey
    rw [if_neg (by omega)]
  · intro h
    have htake : (key.data.take 8).length = 8 := by
      rw [hdata] at h
      simp only [List.length_take]
      omega
    unfold maskedKey
    rw [if_pos h]
    constructor
    · change (key.data.take 8 ++ List.replicate (key.length - 8) '*').take 8 = key.data.take 8
      rw [List.take_append_eq_append_take]
      simp [htake]
    · change (key.data.take 8 ++ List.replicate (key.length - 8) '*').drop 8 = _
      rw [List.drop_append_eq_append_drop]
      simp [htake]
  · intro st hl hk
    rw [check_zotero_config, if_neg (by simp [hl, hk])]

/-- Witness for C7: a 3-character key is fully masked, a 10-character key
keeps its first 8 characters, and a configured state reports the mask. -/
theorem api_key_masking_witness :
    (maskedKey "abc").data = ['*', '*', '*'] ∧
    (maskedKey "abcdefghij").data.take 8 = ['a', 'b', 'c', 'd', 'e', 'f', 'g', 'h'] ∧
    check_zotero_config maskState =
      "✅ Zotero已配置\n库ID: LIB\n库类型: user\nAPI密钥: abcdefgh**" := by
  refine ⟨((api_key_masking "abc").2.1 (by decide)).trans (by decide), ?_, ?_⟩
  · exact (((api_key_masking "abcdefghij").2.2.1 (by decide)).1).trans (by decide)
  · exact ((api_key_masking "x").2.2.2 maskState (by decide) (by decide)).trans (by decide)

/-- Counterexample to C8 as stated: for a concrete raw item with no title,
the projected title is the code's placeholder "无标题", not the literal
string "Untitled". -/
theorem untitled_placeholder_counterexample :
    ¬ ((list_projection ⟨"K1", ⟨some "book", none, some "2024-01-01"⟩⟩).title =
      "Untitled") := by
  decide

/-- Claim C8 (amended): the list, search, and recent-items operations all
project a raw item to the same summary shape with the same defaulting
policy, where a missing title defaults to the placeholder "无标题" (the
code's untitled marker); the list and recent operations render exactly the
pointwise image of this shared projection. -/
theorem shared_projection_and_default (item : Item) :
    list_projection item = search_projection item ∧
    recent_projection item = search_projection item ∧
    (item.data.title = none → (list_projection item).title = "无标题") ∧
    (∀ t, item.data.title = some t → (list_projection item).title = t) ∧
    (∀ env st c st₂ items limit, get_zotero_client env st = (some c, st₂) →
      c.top (some limit) = .ok items →
      (list_items env st limit).1 =
        "找到 " ++ toString (items.map list_projection).length ++ " 个条目:\n" ++
          renderSummaries (items.map list_projection)) ∧
    (∀ env st c st₂ items, get_zotero_client env st = (some c, st₂) →
      c.top (some 10) = .ok items →
      (get_recent_items env st).1 = renderSummaries (items.map recent_projection)) := by
  refine ⟨rfl, rfl, ?_, ?_, ?_, ?_⟩
  · intro h
    simp [list_projection, h]
  · intro t h
    simp [list_projection, h]
  · intro env st c st₂ items limit hget htop
    simp [list_items, hget, htop]
  · intro env st c st₂ items hget htop
    simp [get_recent_items, hget, htop]

/-- Witness for C8 (amended) at a concrete titleless item and a concrete
client: the shared default fires and `list_items` renders the shared
projection. -/
theorem shared_projection_and_default_witness :
    (list_projection ⟨"K2", ⟨none, none, none⟩⟩).title = "无标题" ∧
    (list_items noNetEnv retainState 7).1 =
      "找到 0 个条目:\n" ++ renderSummaries [] := by
  constructor
  · exact (shared_projection_and_default ⟨"K2", ⟨none, none, none⟩⟩).2.2.1 rfl
  · have h := (shared_projection_and_default itemA).2.2.2.2.1 noNetEnv retainState
      retainClient retainState [] 7 rfl rfl
    simpa using h

theorem retainDeleteLoop_calls (c : ClientOps) (l : List Item) :
    (retainDeleteLoop c l).2.2 = l.map fun i => ClientCall.deleteItem i.key := by
  induction l with
  | nil => rfl
  | cons a t ih =>
    cases h : c.deleteItem a.key with
    | ok u => simp [retainDeleteLoop, h, ih]
    | error e => simp [retainDeleteLoop, h, ih]

/-- Claim C1: `retain_items_by_criteria` defaults to dry run; with
dry_run = true it never invokes delete on the client, and with an explicit
dry_run = false it invokes delete exactly once per key of the delete set, in
the order those items were fetched. -/
theorem dry_run_gates_deletion (env : Env) (st : ConfigState)
    (criteria : List (String × String)) :
    (retain_items_by_criteria env st criteria =
      retain_items_by_criteria env st criteria true) ∧
    (∀ k, ClientCall.deleteItem k ∉ (retain_items_by_criteria env st criteria true).2.2) ∧
    (∀ c st₂ items, get_zotero_client env st = (some c, st₂) →
      c.everythingTop = .ok items →
      (retain_items_by_criteria env st criteria false).2.2 =
        ClientCall.everything ::
          (partition_items criteria items).2.map fun i => ClientCall.deleteItem i.key) := by
  refine ⟨rfl, ?_, ?_⟩
  · intro k
    rcases hg : get_zotero_client env st with ⟨zc, st'⟩
    cases zc with
    | none => simp [retain_items_by_criteria, hg]
    | some c =>
      cases he : c.everythingTop with
      | error e => simp [retain_items_by_criteria, hg, he]
      | ok items => simp [retain_items_by_criteria, hg, he]
  · intro c st₂ items hget he
    simp [retain_items_by_criteria, hget, he, retainDeleteLoop_calls]

/-- Witness for C1: on a concrete two-item library where only the book is
retained, the dry run makes no delete call while dry_run = false deletes
exactly the non-retained key "B" after the fetch. -/
theorem dry_run_gates_deletion_witness :
    ClientCall.deleteItem "B" ∉
      (retain_items_by_criteria noNetEnv retainState [("item_type", "book")] true).2.2 ∧
    (retain_items_by_criteria noNetEnv retainState [("item_type", "book")] false).2.2 =
      [ClientCall.everything, ClientCall.deleteItem "B"] :=
  ⟨(dry_run_gates_deletion noNetEnv retainState [("item_type", "book")]).2.1 "B",
   ((dry_run_gates_deletion noNetEnv retainState [("item_type", "book")]).2.2
      retainClient retainState [itemA, itemB] rfl rfl).trans (by decide)⟩

/-- Claim C10: a library_id consisting only of whitespace passes validation
(the raw string is non-empty) yet the stored, stripped value is the empty
string; afterwards `get_zotero_client` returns the absent signal and
`check_zotero_config` reports unconfigured, so passing validation does not
guarantee non-empty stored credentials. -/
theorem whitespace_credentials_pass_validation (env env' : Env) (st : ConfigState) :
    ¬ ((" " : String) = "" ∨ ("ABCD1234" : String) = "") ∧
    (configure_zotero env st " " "ABCD1234" "user").2 =
      ⟨"", "ABCD1234", "user", none⟩ ∧
    get_zotero_client env' (configure_zotero env st " " "ABCD1234" "user").2 =
      (none, (configure_zotero env st " " "ABCD1234" "user").2) ∧
    check_zotero_config (configure_zotero env st " " "ABCD1234" "user").2 =
      check_zotero_config ⟨"", "", "user", none⟩ := by
  have hst : (configure_zotero env st " " "ABCD1234" "user").2 =
      ⟨"", "ABCD1234", "user", none⟩ :=
    (configure_zotero_valid env st " " "ABCD1234" "user" (by decide) (by decide)
      (Or.inl rfl)).trans rfl
  refine ⟨by decide, hst, ?_, ?_⟩
  · rw [hst]
    exact get_client_unconfigured env' _ (Or.inl rfl)
  · rw [hst]
    rfl

/-- Claim C9: every exposed operation is total toward its caller: when the
client is absent it returns the descriptive not-configured result without any
client call, and when a client call raises, the operation converts the
failure into its own textual (or JSON error-field) result instead of
propagating a fault. -/
theorem operations_total_and_short_circuit (env : Env) (st : ConfigState)
    (limit : Nat) (item_key query : String) (item_keys : List String)
    (item_type : Option String) (criteria : List (String × String)) (dry_run : Bool)
    (c : ClientOps) (st₂ : ConfigState) (e : String) :
    ((st.libraryId = "" ∨ st.apiKey = "") →
      list_items env st limit = (toolNotConfiguredMsg, st, []) ∧
      delete_item env st item_key = (toolNotConfiguredMsg, st, []) ∧
      delete_items_batch env st item_keys = (toolNotConfiguredMsg, st, []) ∧
      search_items env st query item_type = (toolNotConfiguredMsg, st, []) ∧
      get_item_details env st item_key = (toolNotConfiguredMsg, st, []) ∧
      retain_items_by_criteria env st criteria dry_run = (toolNotConfiguredMsg, st, []) ∧
      get_library_stats env st = (jsonError resourceNotConfiguredText, st, []) ∧
      get_recent_items env st = (jsonError resourceNotConfiguredText, st, [])) ∧
    (get_zotero_client env st = (some c, st₂) →
      (c.top (some limit) = .error e →
        (list_items env st limit).1 = "获取条目列表失败: " ++ e) ∧
      (c.deleteItem item_key = .error e →
        (delete_item env st item_key).1 = "删除条目失败: " ++ e) ∧
      (c.everythingTop = .error e →
        (search_items env st query item_type).1 = "搜索失败: " ++ e) ∧
      (c.itemGet item_key = .error e →
        (get_item_details env st item_key).1 = "获取条目详情失败: " ++ e) ∧
      (c.everythingTop = .error e →
        (retain_items_by_criteria env st criteria dry_run).1 = "执行筛选操作失败: " ++ e) ∧
      (c.top none = .error e →
        (get_library_stats env st).1 = jsonError ("获取库统计信息失败: " ++ e)) ∧
      (c.top (some 10) = .error e →
        (get_recent_items env st).1 = jsonError ("获取最近条目失败: " ++ e))) := by
  constructor
  · intro h
    have hg := get_client_unconfigured env st h
    exact ⟨by simp [list_items, hg], by simp [delete_item, hg],
      by simp [delete_items_batch, hg], by simp [search_items, hg],
      by simp [get_item_details, hg], by simp [retain_items_by_criteria, hg],
      by simp [get_library_stats, hg], by simp [get_recent_items, hg]⟩
  · intro hget
    refine ⟨?_, ?_, ?_, ?_, ?_, ?_, ?_⟩
    · intro he
      simp [list_items, hget, he]
    · intro he
      simp [delete_item, hget, he]
    · intro he
      simp [search_items, hget, he]
    · intro he
      simp [get_item_details, hget, he]
    · intro he
      simp [retain_items_by_criteria, hget, he]
    · intro he
      simp [get_library_stats, hget, he]
    · intro he
      simp [get_recent_items, hget, he]

/-- Witness for C9: with an empty library_id every operation short-circuits
to the not-configured result, and with a configured client whose calls all
raise "boom" each operation surfaces the failure as text. -/
theorem operations_total_and_short_circuit_witness :
    (list_items noNetEnv unconfState 50).1 = toolNotConfiguredMsg ∧
    (get_library_stats noNetEnv unconfState).2.2 = [] ∧
    (delete_item noNetEnv errState "X").1 = "删除条目失败: boom" ∧
    (retain_items_by_criteria noNetEnv errState [] true).1 = "执行筛选操作失败: boom" := by
  have hA := (operations_total_and_short_circuit noNetEnv unconfState 50 "X" "" []
    none [] true errClient unconfState "boom").1 (Or.inl rfl)
  have hB := (operations_total_and_short_circuit noNetEnv errState 50 "X" "" []
    none [] true errClient errState "boom").2 rfl
  refine ⟨?_, ?_, hB.2.1 rfl, hB.2.2.2.2.1 rfl⟩
  · rw [hA.1]
  · rw [hA.2.2.2.2.2.2.1]
